import Mathlib

/-!
Verification development for the `tensorcircuit.cloud.apis` dispatch layer.

The Python module `src/tensorcircuit/cloud/apis.py` is shallowly embedded here:
module-level mutable globals (`default_provider`, `default_device`, `saved_token`)
and the persisted token file `~/.tc.auth.json` become an explicit `CloudState`
record threaded through every operation; Python `ValueError` / `AttributeError` /
`TypeError` failures become an `Except Err` result; calls into the backend
modules (`tencent`, `local`), which are out of scope, become `BackendCall`
values recording which backend was dispatched to and with which arguments.

The companion module `tensorcircuit/cloud/abstraction.py` (Provider, Device,
Task, `sep`, `sep2`) is not part of the visible sources; its pieces are
modelled from the specification and each such definition is marked
`Modelled from the spec:` in its doc comment.

Python `str` keys stay Lean `String`s; secret token *values* are modelled at
the byte level as `List Nat` (each entry the value of one byte of the UTF-8
encoding of the Python string), so that the base64 encode/decode pair used by
`b64encode_s` / `b64decode_s` can be stated and proved lossless.
-/

set_option autoImplicit false
set_option linter.unusedVariables false

namespace TcCloud

/-- A provider handle (class `Provider` of abstraction.py).
Modelled from the spec: identified by a canonical name string, immutable. -/
structure Provider where
  name : String
deriving DecidableEq, Repr

/-- A device handle (class `Device` of abstraction.py).
Modelled from the spec: a name string plus an owning Provider back-reference,
which may be absent before resolution attaches one. -/
structure Device where
  name : String
  provider : Option Provider
deriving DecidableEq, Repr

/-- A task handle (class `Task` of abstraction.py).
Modelled from the spec: an opaque id string plus an optional Device. -/
structure Task where
  id : String
  device : Option Device
deriving DecidableEq, Repr

/-- A loosely-typed Python argument value: the apis.py signatures accept
`Union[str, Provider]`, `Union[str, Device]`, `Union[str, Task]` and the
swap idiom `provider, device = None, provider` can even move a value of one
of these types into a slot annotated with another, so one union type models
all of them. -/
inductive PyVal where
  | str (s : String)
  | prov (p : Provider)
  | dev (d : Device)
  | task (t : Task)
deriving DecidableEq, Repr

/-- Failure outcomes of the embedded operations.  `unsupportedProvider`
models `raise ValueError("Unsupported provider: %s" % provider.name)`;
`providerDeviceMismatch` the spec's `ProviderDeviceMismatch`;
`deviceRequired` the `raise ValueError("Please specify the device apart
from the provider")` branch of `set_device`; `attributeError` a Python
`AttributeError` from accessing `.name`/`.provider`/`.device` on a value
that lacks it; `typeError` a value of an unexpected type reaching code
that cannot handle it; `tokenStoreCorrupt` a failure to base64-decode a
value read back from the persisted token file. -/
inductive Err where
  | unsupportedProvider (name : String)
  | providerDeviceMismatch (fromStr : String) (given : String)
  | deviceRequired
  | attributeError
  | typeError
  | tokenStoreCorrupt
deriving DecidableEq, Repr

/-- A dispatched backend invocation: the backend implementations
(`tencent.py`, `local.py`) are external collaborators, so an operation's
observable result is which backend function was reached and with which
resolved arguments. -/
inductive BackendCall where
  | listDevices (backend : String) (token : Option (List Nat))
  | listProperties (backend : String) (device : Device) (token : Option (List Nat))
  | getTaskDetails (backend : String) (task : Task) (device : Device) (token : Option (List Nat))
  | submitTask (backend : String) (device : Device) (token : Option (List Nat))
  | resubmitTask (backend : String) (task : Task) (token : Option (List Nat))
  | removeTask (backend : String) (task : Task) (token : Option (List Nat))
  | listTasks (backend : String) (device : Option Device) (token : Option (List Nat))
deriving DecidableEq, Repr

/-- The process-wide mutable state of apis.py: the module globals
`default_provider`, `default_device`, `saved_token`, and the contents of
the persisted token file `~/.tc.auth.json` (`none` = file missing; entries
hold the base64-encoded byte values exactly as stored on disk). -/
structure CloudState where
  default_provider : Provider
  default_device : Device
  saved_token : List (String × List Nat)
  authfile : Option (List (String × List Nat))
deriving DecidableEq, Repr

/-- The provider/device delimiter `sep` of abstraction.py: the token-file
key examples in apis.py (`"tencent::"`, `"tencent::20xmon"`) and the
default device name `"tencent::simulator:tc"` fix it as `"::"`. -/
def sep : String := "::"

/-- Modelled from the spec: `sep2`, the device/task-id delimiter inside a
composite task reference, is defined in the missing abstraction.py; the
spec only requires a fixed multi-character token distinct from `sep`, so a
representative concrete value is used. -/
def sep2 : String := "~~"

/-- Split a character list on every (non-overlapping, leftmost-first)
occurrence of the two-character separator `c1 c2`, mirroring Python
`str.split` for the two-character separators `sep` and `sep2`. -/
def splitOn2 (c1 c2 : Char) : List Char → List (List Char)
  | [] => [[]]
  | [a] => [[a]]
  | a :: b :: rest =>
    if a = c1 ∧ b = c2 then [] :: splitOn2 c1 c2 rest
    else
      match splitOn2 c1 c2 (b :: rest) with
      | [] => [[a]]
      | g :: gs => (a :: g) :: gs

/-- Python `s.split(sep)` with `sep = "::"`. -/
def splitSep (s : String) : List String :=
  (splitOn2 ':' ':' s.toList).map List.asString

/-- Python `s.split(sep2)` with `sep2 = "~~"`. -/
def splitSep2 (s : String) : List String :=
  (splitOn2 '~' '~' s.toList).map List.asString

/-- Join strings with a separator (used for the device-name remainder when
a name contains the separator more than once). -/
def joinSep (s : String) : List String → String
  | [] => ""
  | [x] => x
  | x :: xs => x ++ s ++ joinSep s xs

/-- Lookup in a Python-dict model: first entry with the given key (Python
dicts never hold duplicate keys, so first = only). -/
def dlookup {α : Type} : List (String × α) → String → Option α
  | [], _ => none
  | (k', v) :: rest, k => if k' = k then some v else dlookup rest k

/-- Python `d[k] = v`: overwrite the value at an existing key in place,
else append the new binding at the end. -/
def dinsert {α : Type} : List (String × α) → String → α → List (String × α)
  | [], k, v => [(k, v)]
  | (k', v') :: rest, k, v =>
    if k' = k then (k, v) :: rest else (k', v') :: dinsert rest k v

/-- Python `base.update(other)`: insert every binding of `other` into
`base`, in order. -/
def dupdate {α : Type} (base other : List (String × α)) : List (String × α) :=
  other.foldl (fun acc kv => dinsert acc kv.1 kv.2) base

/-- The standard base64 alphabet, as ASCII codes: `A`-`Z`, `a`-`z`,
`0`-`9`, `+`, `/`. -/
def b64chars : List Nat :=
  [65, 66, 67, 68, 69, 70, 71, 72, 73, 74, 75, 76, 77, 78, 79, 80, 81, 82,
   83, 84, 85, 86, 87, 88, 89, 90,
   97, 98, 99, 100, 101, 102, 103, 104, 105, 106, 107, 108, 109, 110, 111,
   112, 113, 114, 115, 116, 117, 118, 119, 120, 121, 122,
   48, 49, 50, 51, 52, 53, 54, 55, 56, 57, 43, 47]

/-- The ASCII code of the base64 character for a sextet. -/
def encChar (n : Nat) : Nat := b64chars.getD n 0

/-- Index of a value in a list, if present. -/
def idxOf : List Nat → Nat → Option Nat
  | [], _ => none
  | a :: rest, c => if a = c then some 0 else (idxOf rest c).map (· + 1)

/-- The sextet value of a base64 character, if it is in the alphabet. -/
def decChar (c : Nat) : Option Nat := idxOf b64chars c

/-- `b64encode_s` of apis.py, at the byte level: standard base64 of the
UTF-8 bytes of the secret (the `.encode("utf-8")`/`.decode("utf-8")`
wrappers are the identity on the byte-list representation used here).
`61` is the ASCII code of the padding character `=`. -/
def b64encode_s : List Nat → List Nat
  | [] => []
  | [a] => [encChar (a / 4), encChar (a % 4 * 16), 61, 61]
  | [a, b] => [encChar (a / 4), encChar (a % 4 * 16 + b / 16), encChar (b % 16 * 4), 61]
  | a :: b :: c :: rest =>
    encChar (a / 4) :: encChar (a % 4 * 16 + b / 16) ::
      encChar (b % 16 * 4 + c / 64) :: encChar (c % 64) :: b64encode_s rest

/-- Decode the final base64 quadruple, which may carry `=` padding. -/
def b64decodeLast (w x y z : Nat) : Option (List Nat) :=
  if z = 61 then
    if y = 61 then
      match decChar w, decChar x with
      | some a, some b => some [a * 4 + b / 16]
      | _, _ => none
    else
      match decChar w, decChar x, decChar y with
      | some a, some b, some c => some [a * 4 + b / 16, b % 16 * 16 + c / 4]
      | _, _, _ => none
  else
    match decChar w, decChar x, decChar y, decChar z with
    | some a, some b, some c, some d =>
      some [a * 4 + b / 16, b % 16 * 16 + c / 4, c % 4 * 64 + d]
    | _, _, _, _ => none

/-- `b64decode_s` of apis.py, at the byte level: inverse of `b64encode_s`
on well-formed base64; `none` models the exception Python's `b64decode`
raises on malformed input. -/
def b64decode_s : List Nat → Option (List Nat)
  | [] => some []
  | w :: x :: y :: z :: rest =>
    match rest with
    | [] => b64decodeLast w x y z
    | _ =>
      match decChar w, decChar x, decChar y, decChar z, b64decode_s rest with
      | some a, some b, some c, some d, some tl =>
        some ((a * 4 + b / 16) :: (b % 16 * 16 + c / 4) :: (c % 4 * 64 + d) :: tl)
      | _, _, _, _, _ => none
  | _ => none

/-- The dict comprehension `{k: b64decode_s(v) for k, v in file_token.items()}`
of `set_token`: decode every value read back from the persisted file, the
whole load failing if any single value is malformed. -/
def decodeEntries : List (String × List Nat) → Except Err (List (String × List Nat))
  | [] => .ok []
  | (k, v) :: rest =>
    match b64decode_s v with
    | none => .error .tokenStoreCorrupt
    | some d =>
      match decodeEntries rest with
      | .error e => .error e
      | .ok r => .ok ((k, d) :: r)

/-- Modelled from the spec: `Provider.from_name` of the missing
abstraction.py — constructed from a string or idempotently from an
existing Provider; any other input is a type error. -/
def providerFromName (v : PyVal) : Except Err Provider :=
  match v with
  | .str s => .ok ⟨s⟩
  | .prov p => .ok p
  | _ => .error .typeError

/-- Normalize an optional loosely-typed provider argument. -/
def normalizeProv : Option PyVal → Except Err (Option Provider)
  | none => .ok none
  | some v =>
    match providerFromName v with
    | .error e => .error e
    | .ok p => .ok (some p)

/-- Modelled from the spec: the `Device(name, provider)` constructor of the
missing abstraction.py — when the name embeds the provider
(`provider::device`) the prefix is taken as the provider and must not
conflict with an explicitly supplied provider argument
(`ProviderDeviceMismatch` on conflict); otherwise the supplied provider
(possibly absent) is attached. -/
def deviceInit (s : String) (p? : Option PyVal) : Except Err Device :=
  let parts := splitSep s
  if parts.length > 1 then
    let pname := parts.headD ""
    let dname := joinSep sep parts.tail
    match normalizeProv p? with
    | .error e => .error e
    | .ok none => .ok ⟨dname, some ⟨pname⟩⟩
    | .ok (some p) =>
      if p.name = pname then .ok ⟨dname, some ⟨pname⟩⟩
      else .error (.providerDeviceMismatch pname p.name)
  else
    match normalizeProv p? with
    | .error e => .error e
    | .ok pr => .ok ⟨s, pr⟩

/-- Modelled from the spec: `Device.from_name` of the missing
abstraction.py — a string is parsed by the constructor; an existing Device
keeps its provider, or has the supplied one attached when it lacks one. -/
def deviceFromName (v : PyVal) (p? : Option PyVal) : Except Err Device :=
  match v with
  | .str s => deviceInit s p?
  | .dev d =>
    match d.provider with
    | some _ => .ok d
    | none =>
      match normalizeProv p? with
      | .error e => .error e
      | .ok pr => .ok ⟨d.name, pr⟩
  | _ => .error .typeError

/-- Modelled from the spec: `Provider.get_token` of the missing
abstraction.py — `TokenStore.getToken` scoped to the provider alone, i.e.
the exact provider-level key `provider.name + sep`. -/
def providerGetToken (st : CloudState) (p : Provider) : Option (List Nat) :=
  dlookup st.saved_token (p.name ++ sep)

/-- Modelled from the spec: `Device.get_token` of the missing
abstraction.py — `TokenStore.getToken` scoped to the resolved
provider/device, i.e. the exact device-scoped key
`provider.name + sep + device.name`; accessing the provider of a device
that has none is an attribute error. -/
def deviceGetToken (st : CloudState) (d : Device) : Except Err (Option (List Nat)) :=
  match d.provider with
  | some p => .ok (dlookup st.saved_token (p.name ++ sep ++ d.name))
  | none => .error .attributeError

/-- Modelled from the spec: `Task.get_device` of the missing
abstraction.py — the attached device, the caller falling back to the
DefaultContext device when none was ever attached. -/
def taskGetDevice (st : CloudState) (t : Task) : Device :=
  t.device.getD st.default_device

/-- Write-back step shared by both branches of `set_token` (apis.py lines
159-166): when `cached` is true the entire in-memory mapping, each value
base64-encoded, replaces the contents of the persisted file.  Returns the
updated state and the returned `saved_token` mapping. -/
def tokenPersist (st : CloudState) (cached : Bool) :
    Except Err (CloudState × List (String × List Nat)) :=
  if cached then
    .ok ({ st with authfile := some (st.saved_token.map fun kv => (kv.1, b64encode_s kv.2)) },
      st.saved_token)
  else .ok (st, st.saved_token)

/-- `set_provider` of apis.py: resolve the provider (the module default
when omitted) and, when `set_global`, store it as the new process-wide
default (the broadcast over every loaded `tensorcircuit*` module collapses
to the single `default_provider` cell of the visible module). -/
def set_provider (st : CloudState) (provider : Option PyVal) (set_global : Bool) :
    Except Err (Provider × CloudState) :=
  match providerFromName (provider.getD (.prov st.default_provider)) with
  | .error e => .error e
  | .ok prov =>
    if set_global then .ok (prov, { st with default_provider := prov })
    else .ok (prov, st)

/-- `set_device` of apis.py: a provider given without a device is swapped
into the device slot; the `raise ValueError("Please specify the device
apart from the provider")` check is kept verbatim after the swap; a string
device containing `sep` is parsed with the raw provider argument, a string
without `sep` or a handle gets the supplied or default provider attached;
when `set_global`, the result becomes the new default device. -/
def set_device (st : CloudState) (provider device : Option PyVal) (set_global : Bool) :
    Except Err (Device × CloudState) :=
  let pd : Option PyVal × Option PyVal :=
    match provider, device with
    | some p, none => (none, some p)
    | p, d => (p, d)
  if pd.2.isNone && pd.1.isSome then .error .deviceRequired
  else
    let devArg := pd.2.getD (.dev st.default_device)
    let devRes :=
      match devArg with
      | .str s =>
        if (splitSep s).length > 1 then deviceInit s pd.1
        else deviceInit s (some (pd.1.getD (.prov st.default_provider)))
      | other => deviceFromName other (some (pd.1.getD (.prov st.default_provider)))
    match devRes with
    | .error e => .error e
    | .ok dev =>
      if set_global then .ok (dev, { st with default_device := dev })
      else .ok (dev, st)

/-- `set_token` of apis.py: resolve provider and device first; with no
token, reload the persisted file (missing file = empty base, each stored
value base64-decoded) and merge it as the base under the in-memory
mapping; with a token, insert it under the provider-level or device-scoped
credential key; finally, when `cached`, write the whole mapping back to
the file encoded. -/
def set_token (st : CloudState) (token : Option (List Nat))
    (provider device : Option PyVal) (cached : Bool) :
    Except Err (CloudState × List (String × List Nat)) :=
  match providerFromName (provider.getD (.prov st.default_provider)) with
  | .error e => .error e
  | .ok prov =>
    let devRes : Except Err (Option Device) :=
      match device with
      | none => .ok none
      | some v =>
        match deviceFromName v (some (.prov prov)) with
        | .error e => .error e
        | .ok d => .ok (some d)
    match devRes with
    | .error e => .error e
    | .ok dev? =>
      match token with
      | none =>
        let fileRes : Except Err (List (String × List Nat)) :=
          if cached then
            match st.authfile with
            | some entries => decodeEntries entries
            | none => .ok []
          else .ok []
        match fileRes with
        | .error e => .error e
        | .ok fileTok =>
          tokenPersist { st with saved_token := dupdate fileTok st.saved_token } cached
      | some t =>
        let key :=
          match dev? with
          | none => prov.name ++ sep
          | some d => prov.name ++ sep ++ d.name
        tokenPersist { st with saved_token := dinsert st.saved_token key t } cached

/-- `get_token` of apis.py: build the exact credential key
(`provider.name + sep`, extended with `device.name` when a device is
given) and return the value stored under it, or `None`. -/
def get_token (st : CloudState) (provider device : Option PyVal) :
    Except Err (Option (List Nat)) :=
  match providerFromName (provider.getD (.prov st.default_provider)) with
  | .error e => .error e
  | .ok prov =>
    let devRes : Except Err (Option Device) :=
      match device with
      | none => .ok none
      | some v =>
        match deviceFromName v (some (.prov prov)) with
        | .error e => .error e
        | .ok d => .ok (some d)
    match devRes with
    | .error e => .error e
    | .ok dev? =>
      let target :=
        match dev? with
        | none => prov.name ++ sep
        | some d => prov.name ++ sep ++ d.name
      .ok (dlookup st.saved_token target)

/-- `list_devices` of apis.py: resolve provider (default when omitted) and
token, then dispatch by provider name; any other name raises
`Unsupported provider`. -/
def list_devices (st : CloudState) (provider : Option PyVal) (token : Option (List Nat)) :
    Except Err BackendCall :=
  match providerFromName (provider.getD (.prov st.default_provider)) with
  | .error e => .error e
  | .ok prov =>
    let tok :=
      match token with
      | some t => some t
      | none => providerGetToken st prov
    if prov.name = "tencent" then .ok (.listDevices "tencent" tok)
    else if prov.name = "local" then .ok (.listDevices "local" tok)
    else .error (.unsupportedProvider prov.name)

/-- `list_properties` of apis.py: provider-only calls are swapped into the
device slot; the device (default when omitted) is resolved against the raw
provider argument; a missing provider is taken from the device; only the
`tencent` backend is dispatched to, every other name raises
`Unsupported provider` (a provider passed as a plain string reaches
`provider.name` unconverted — an attribute error). -/
def list_properties (st : CloudState) (provider device : Option PyVal)
    (token : Option (List Nat)) : Except Err BackendCall :=
  let pd : Option PyVal × Option PyVal :=
    match provider, device with
    | some p, none => (none, some p)
    | p, d => (p, d)
  let devArg := pd.2.getD (.dev st.default_device)
  match deviceFromName devArg pd.1 with
  | .error e => .error e
  | .ok dev =>
    let tokRes :=
      match token with
      | some t => Except.ok (some t)
      | none => deviceGetToken st dev
    match tokRes with
    | .error e => .error e
    | .ok tok =>
      let pnameRes : Except Err String :=
        match pd.1 with
        | none =>
          match dev.provider with
          | some pr => .ok pr.name
          | none => .error .attributeError
        | some (.prov pr) => .ok pr.name
        | some _ => .error .attributeError
      match pnameRes with
      | .error e => .error e
      | .ok pname =>
        if pname = "tencent" then .ok (.listProperties "tencent" dev tok)
        else .error (.unsupportedProvider pname)

/-- `get_task` of apis.py: provider-only calls are swapped into the device
slot; with an explicit device the task id is kept whole; with none, an id
containing `sep2` is decomposed into a device part (parsed by the Device
constructor) and the bare id. -/
def get_task (st : CloudState) (taskid : String) (provider device : Option PyVal) :
    Except Err Task :=
  let pd : Option PyVal × Option PyVal :=
    match provider, device with
    | some p, none => (none, some p)
    | p, d => (p, d)
  match pd.2 with
  | some v =>
    match deviceFromName v pd.1 with
    | .error e => .error e
    | .ok d => .ok ⟨taskid, some d⟩
  | none =>
    let parts := splitSep2 taskid
    if parts.length > 1 then
      match deviceInit (parts.headD "") none with
      | .error e => .error e
      | .ok d => .ok ⟨parts.getD 1 "", some d⟩
    else .ok ⟨taskid, none⟩

/-- `get_task_details` of apis.py: wrap a bare id into a Task, take the
task's device or the default, resolve the token, then dispatch on the
device's provider name. -/
def get_task_details (st : CloudState) (taskOrId : PyVal) (token : Option (List Nat)) :
    Except Err BackendCall :=
  let taskRes : Except Err Task :=
    match taskOrId with
    | .str s => .ok ⟨s, none⟩
    | .task t => .ok t
    | _ => .error .attributeError
  match taskRes with
  | .error e => .error e
  | .ok task =>
    let device := task.device.getD st.default_device
    let tokRes :=
      match token with
      | some t => Except.ok (some t)
      | none => deviceGetToken st device
    match tokRes with
    | .error e => .error e
    | .ok tok =>
      match device.provider with
      | none => .error .attributeError
      | some pr =>
        if pr.name = "tencent" then .ok (.getTaskDetails "tencent" task device tok)
        else if pr.name = "local" then .ok (.getTaskDetails "local" task device tok)
        else .error (.unsupportedProvider pr.name)

/-- `submit_task` of apis.py: a missing device is `get_device()`; a string
device is parsed exactly as in `set_device` (note the reassignment of
`provider` to the default in the no-separator branch); a Device handle is
used as-is; a missing provider is the device's; dispatch is by provider
name with `tencent` and `local` registered. -/
def submit_task (st : CloudState) (provider device : Option PyVal)
    (token : Option (List Nat)) : Except Err BackendCall :=
  let devArgRes : Except Err PyVal :=
    match device with
    | some v => .ok v
    | none =>
      match set_device st none none false with
      | .error e => .error e
      | .ok (d, _) => .ok (.dev d)
  match devArgRes with
  | .error e => .error e
  | .ok devArg =>
    let pdRes : Except Err (Option PyVal × Device) :=
      match devArg with
      | .str s =>
        if (splitSep s).length > 1 then
          match deviceInit s provider with
          | .error e => .error e
          | .ok d => .ok (provider, d)
        else
          let provider2 : Option PyVal := some (provider.getD (.prov st.default_provider))
          match deviceInit s provider2 with
          | .error e => .error e
          | .ok d => .ok (provider2, d)
      | .dev d => .ok (provider, d)
      | _ => .error .typeError
    match pdRes with
    | .error e => .error e
    | .ok (prov?, dev) =>
      let tokRes :=
        match token with
        | some t => Except.ok (some t)
        | none => deviceGetToken st dev
      match tokRes with
      | .error e => .error e
      | .ok tok =>
        let pnameRes : Except Err String :=
          match prov? with
          | none =>
            match dev.provider with
            | some pr => .ok pr.name
            | none => .error .attributeError
          | some (.prov pr) => .ok pr.name
          | some _ => .error .attributeError
        match pnameRes with
        | .error e => .error e
        | .ok pname =>
          if pname = "tencent" then .ok (.submitTask "tencent" dev tok)
          else if pname = "local" then .ok (.submitTask "local" dev tok)
          else .error (.unsupportedProvider pname)

/-- `resubmit_task` of apis.py: wrap a bare id into a Task, take its
device (falling back to the default), resolve the token, then dispatch —
only the `tencent` backend implements resubmission. -/
def resubmit_task (st : CloudState) (task : PyVal) (token : Option (List Nat)) :
    Except Err BackendCall :=
  let taskRes : Except Err Task :=
    match task with
    | .str s => .ok ⟨s, none⟩
    | .task t => .ok t
    | _ => .error .attributeError
  match taskRes with
  | .error e => .error e
  | .ok t =>
    let dev := taskGetDevice st t
    let tokRes :=
      match token with
      | some tk => Except.ok (some tk)
      | none => deviceGetToken st dev
    match tokRes with
    | .error e => .error e
    | .ok tok =>
      match dev.provider with
      | none => .error .attributeError
      | some pr =>
        if pr.name = "tencent" then .ok (.resubmitTask "tencent" t tok)
        else .error (.unsupportedProvider pr.name)

/-- `remove_task` of apis.py: identical shape to `resubmit_task`, with
only the `tencent` backend registered. -/
def remove_task (st : CloudState) (task : PyVal) (token : Option (List Nat)) :
    Except Err BackendCall :=
  let taskRes : Except Err Task :=
    match task with
    | .str s => .ok ⟨s, none⟩
    | .task t => .ok t
    | _ => .error .attributeError
  match taskRes with
  | .error e => .error e
  | .ok t =>
    let dev := taskGetDevice st t
    let tokRes :=
      match token with
      | some tk => Except.ok (some tk)
      | none => deviceGetToken st dev
    match tokRes with
    | .error e => .error e
    | .ok tok =>
      match dev.provider with
      | none => .error .attributeError
      | some pr =>
        if pr.name = "tencent" then .ok (.removeTask "tencent" t tok)
        else .error (.unsupportedProvider pr.name)

/-- `list_tasks` of apis.py: resolve provider and its provider-level
token; an explicit device is resolved with no provider attached; dispatch
is by provider name with `tencent` and `local` registered. -/
def list_tasks (st : CloudState) (provider device : Option PyVal)
    (token : Option (List Nat)) : Except Err BackendCall :=
  match providerFromName (provider.getD (.prov st.default_provider)) with
  | .error e => .error e
  | .ok prov =>
    let tok :=
      match token with
      | some t => some t
      | none => providerGetToken st prov
    let devRes : Except Err (Option Device) :=
      match device with
      | none => .ok none
      | some v =>
        match deviceFromName v none with
        | .error e => .error e
        | .ok d => .ok (some d)
    match devRes with
    | .error e => .error e
    | .ok dev? =>
      if prov.name = "tencent" then .ok (.listTasks "tencent" dev? tok)
      else if prov.name = "local" then .ok (.listTasks "local" dev? tok)
      else .error (.unsupportedProvider prov.name)

/-- A concrete state matching the module right after import: default
provider `tencent`, default device `tencent::simulator:tc`, no tokens, no
persisted file. -/
def stW : CloudState :=
  ⟨⟨"tencent"⟩, ⟨"simulator:tc", some ⟨"tencent"⟩⟩, [], none⟩

theorem decChar_encChar : ∀ s, s < 64 → decChar (encChar s) = some s := by decide

theorem encChar_ne_pad : ∀ s, s < 64 → encChar s ≠ 61 := by decide

theorem b64encode_ne_nil : ∀ v : List Nat, v ≠ [] → b64encode_s v ≠ [] := by
  intro v hv
  match v with
  | [] => exact absurd rfl hv
  | [a] => simp [b64encode_s]
  | [a, b] => simp [b64encode_s]
  | a :: b :: c :: rest => simp [b64encode_s]

theorem b64_roundtrip : ∀ v : List Nat, (∀ b ∈ v, b < 256) →
    b64decode_s (b64encode_s v) = some v := by
  intro v
  induction v using b64encode_s.induct with
  | case1 => intro _; rfl
  | case2 a =>
    intro hv
    have ha : a < 256 := hv a (by simp)
    have h1 : a / 4 < 64 := by omega
    have h2 : a % 4 * 16 < 64 := by omega
    simp only [b64encode_s, b64decode_s, b64decodeLast, if_pos rfl,
      decChar_encChar _ h1, decChar_encChar _ h2]
    have e1 : a / 4 * 4 + a % 4 * 16 / 16 = a := by omega
    simp
    omega
  | case3 a b =>
    intro hv
    have ha : a < 256 := hv a (by simp)
    have hb : b < 256 := hv b (by simp)
    have h1 : a / 4 < 64 := by omega
    have h2 : a % 4 * 16 + b / 16 < 64 := by omega
    have h3 : b % 16 * 4 < 64 := by omega
    simp only [b64encode_s, b64decode_s, b64decodeLast, if_pos rfl,
      if_neg (encChar_ne_pad _ h3), decChar_encChar _ h1, decChar_encChar _ h2,
      decChar_encChar _ h3]
    have e1 : a / 4 * 4 + (a % 4 * 16 + b / 16) / 16 = a := by omega
    have e2 : (a % 4 * 16 + b / 16) % 16 * 16 + b % 16 * 4 / 4 = b := by omega
    simp
    constructor <;> omega
  | case4 a b c rest ih =>
    intro hv
    have ha : a < 256 := hv a (by simp)
    have hb : b < 256 := hv b (by simp)
    have hc : c < 256 := hv c (by simp)
    have h1 : a / 4 < 64 := by omega
    have h2 : a % 4 * 16 + b / 16 < 64 := by omega
    have h3 : b % 16 * 4 + c / 64 < 64 := by omega
    have h4 : c % 64 < 64 := by omega
    have e1 : a / 4 * 4 + (a % 4 * 16 + b / 16) / 16 = a := by omega
    have e2 : (a % 4 * 16 + b / 16) % 16 * 16 + (b % 16 * 4 + c / 64) / 4 = b := by omega
    have e3 : (b % 16 * 4 + c / 64) % 4 * 64 + c % 64 = c := by omega
    by_cases hr : rest = []
    · subst hr
      simp only [b64encode_s, b64decode_s, b64decodeLast,
        if_neg (encChar_ne_pad _ h4), decChar_encChar _ h1, decChar_encChar _ h2,
        decChar_encChar _ h3, decChar_encChar _ h4]
      rw [e1, e2, e3]
    · have hrest : ∀ x ∈ rest, x < 256 := fun x hx => hv x (by simp [hx])
      have hne : b64encode_s rest ≠ [] := b64encode_ne_nil rest hr
      rcases hE : b64encode_s rest with _ | ⟨r0, rs⟩
      · exact absurd hE hne
      · have ihr := ih hrest
        rw [hE] at ihr
        simp only [b64encode_s, hE, b64decode_s, decChar_encChar _ h1,
          decChar_encChar _ h2, decChar_encChar _ h3, decChar_encChar _ h4, ihr]
        rw [e1, e2, e3]

theorem decodeEntries_encode : ∀ F : List (String × List Nat),
    (∀ kv ∈ F, ∀ b ∈ kv.2, b < 256) →
    decodeEntries (F.map fun kv => (kv.1, b64encode_s kv.2)) = .ok F := by
  intro F
  induction F with
  | nil => intro _; rfl
  | cons kv rest ih =>
    intro hF
    obtain ⟨k, v⟩ := kv
    have h1 : ∀ b ∈ v, b < 256 := hF (k, v) (by simp)
    have h2 : ∀ kv' ∈ rest, ∀ b ∈ kv'.2, b < 256 := fun kv' h => hF kv' (by simp [h])
    simp only [List.map_cons, decodeEntries, b64_roundtrip v h1, ih h2]

theorem dlookup_dinsert_self {α : Type} (d : List (String × α)) (k : String) (v : α) :
    dlookup (dinsert d k v) k = some v := by
  induction d with
  | nil => simp [dinsert, dlookup]
  | cons kv rest ih =>
    obtain ⟨k', v'⟩ := kv
    by_cases h : k' = k
    · simp [dinsert, h, dlookup]
    · simp [dinsert, h, dlookup, ih]

theorem dlookup_dinsert_ne {α : Type} (d : List (String × α)) (k k' : String) (v : α)
    (h : k ≠ k') : dlookup (dinsert d k v) k' = dlookup d k' := by
  induction d with
  | nil => simp [dinsert, dlookup, h]
  | cons kv rest ih =>
    obtain ⟨k0, v0⟩ := kv
    by_cases h0 : k0 = k
    · subst h0
      simp [dinsert, dlookup, h]
    · simp [dinsert, h0, dlookup, ih]

theorem dlookup_none_of_not_key {α : Type} (d : List (String × α)) (k : String)
    (h : k ∉ d.map Prod.fst) : dlookup d k = none := by
  induction d with
  | nil => rfl
  | cons kv rest ih =>
    obtain ⟨k', v'⟩ := kv
    simp only [List.map_cons, List.mem_cons, not_or] at h
    have : k' ≠ k := fun hEq => h.1 hEq.symm
    simp [dlookup, this, ih h.2]

theorem dupdate_nil {α : Type} (base : List (String × α)) : dupdate base [] = base := rfl

theorem dupdate_cons {α : Type} (base : List (String × α)) (k : String) (v : α)
    (rest : List (String × α)) :
    dupdate base ((k, v) :: rest) = dupdate (dinsert base k v) rest := rfl

theorem dlookup_dupdate_none {α : Type} (other : List (String × α)) :
    ∀ (base : List (String × α)) (k : String), dlookup other k = none →
    dlookup (dupdate base other) k = dlookup base k := by
  induction other with
  | nil => intro base k _; rfl
  | cons kv rest ih =>
    intro base k h
    obtain ⟨k', v'⟩ := kv
    have hk : k' ≠ k := by
      intro hEq
      simp [dlookup, hEq] at h
    have hrest : dlookup rest k = none := by
      simpa [dlookup, hk] using h
    rw [dupdate_cons, ih _ _ hrest, dlookup_dinsert_ne _ _ _ _ hk]

theorem dlookup_dupdate_some {α : Type} (other : List (String × α)) :
    ∀ (base : List (String × α)) (k : String) (v : α),
    (other.map Prod.fst).Nodup → dlookup other k = some v →
    dlookup (dupdate base other) k = some v := by
  induction other with
  | nil => intro base k v _ h; simp [dlookup] at h
  | cons kv rest ih =>
    intro base k v hn h
    obtain ⟨k', v'⟩ := kv
    simp only [List.map_cons, List.nodup_cons] at hn
    by_cases hk : k' = k
    · subst hk
      have hv : v' = v := by simpa [dlookup] using h
      subst hv
      have hrest : dlookup rest k' = none := dlookup_none_of_not_key _ _ hn.1
      rw [dupdate_cons, dlookup_dupdate_none _ _ _ hrest, dlookup_dinsert_self]
    · have hrest : dlookup rest k = some v := by simpa [dlookup, hk] using h
      rw [dupdate_cons]
      exact ih _ _ _ hn.2 hrest

theorem providerFromName_err (v : PyVal) (e : Err) (h : providerFromName v = .error e) :
    e = .typeError := by
  cases v <;> simp_all [providerFromName]

theorem normalizeProv_err (p? : Option PyVal) (e : Err) (h : normalizeProv p? = .error e) :
    e = .typeError := by
  cases p? with
  | none => simp [normalizeProv] at h
  | some v =>
    cases hp : providerFromName v with
    | error e' =>
      rw [normalizeProv, hp] at h
      cases h
      exact providerFromName_err v e hp
    | ok p => rw [normalizeProv, hp] at h; cases h

theorem deviceInit_ne_deviceRequired (s : String) (p? : Option PyVal) :
    deviceInit s p? ≠ .error .deviceRequired := by
  cases hn : normalizeProv p? with
  | error e =>
    have he : e = .typeError := normalizeProv_err _ _ hn
    subst he
    by_cases h : (splitSep s).length > 1 <;> simp [deviceInit, h, hn]
  | ok pr =>
    by_cases h : (splitSep s).length > 1
    · cases pr with
      | none => simp [deviceInit, h, hn]
      | some p =>
        by_cases hp2 : p.name = ((splitSep s).head?).getD "" <;>
          simp [deviceInit, h, hn, hp2]
    · simp [deviceInit, h, hn]

theorem deviceFromName_ne_deviceRequired (v : PyVal) (p? : Option PyVal) :
    deviceFromName v p? ≠ .error .deviceRequired := by
  cases v with
  | str s => exact deviceInit_ne_deviceRequired s p?
  | dev d =>
    cases hd : d.provider with
    | some p => simp [deviceFromName, hd]
    | none =>
      cases hn : normalizeProv p? with
      | error e =>
        have he : e = .typeError := normalizeProv_err _ _ hn
        subst he
        simp [deviceFromName, hd, hn]
      | ok pr => simp [deviceFromName, hd, hn]
  | prov p => simp [deviceFromName]
  | task t => simp [deviceFromName]

theorem deviceInit_no_sep (s : String) (p? : Option PyVal) (pr : Option Provider)
    (hs : ¬ (splitSep s).length > 1) (hn : normalizeProv p? = .ok pr) :
    deviceInit s p? = .ok ⟨s, pr⟩ := by
  simp [deviceInit, hs, hn]

theorem deviceInit_sep (s p d : String) (hs : splitSep s = [p, d]) :
    (deviceInit s none = .ok ⟨d, some ⟨p⟩⟩) ∧
    (∀ q : Provider, q.name = p → deviceInit s (some (.prov q)) = .ok ⟨d, some ⟨p⟩⟩) ∧
    (∀ q : Provider, q.name ≠ p → deviceInit s (some (.prov q)) =
      .error (.providerDeviceMismatch p q.name)) := by
  refine ⟨?_, ?_, ?_⟩
  · simp [deviceInit, hs, normalizeProv, joinSep]
  · intro q hq
    simp [deviceInit, hs, normalizeProv, providerFromName, joinSep, hq]
  · intro q hq
    simp [deviceInit, hs, normalizeProv, providerFromName, joinSep, hq]

/-- Claim C1: for every operation in the dispatch table (`list_devices`,
`list_properties`, `get_task_details`, `submit_task`, `resubmit_task`,
`remove_task`, `list_tasks`), when the resolved provider's name is not one
with a registered backend implementation (any name other than `tencent`
and `local`, e.g. `nonexistent`), the operation fails with the
`Unsupported provider` error before any backend call — the result is an
error, never a `BackendCall` and never a silent default. -/
theorem c1_unsupported_provider (st : CloudState) (p : String)
    (h1 : p ≠ "tencent") (h2 : p ≠ "local") :
    list_devices st (some (.prov ⟨p⟩)) none = .error (.unsupportedProvider p) ∧
    list_properties st none (some (.dev ⟨"d0", some ⟨p⟩⟩)) none
      = .error (.unsupportedProvider p) ∧
    get_task_details st (.task ⟨"t0", some ⟨"d0", some ⟨p⟩⟩⟩) none
      = .error (.unsupportedProvider p) ∧
    submit_task st (some (.prov ⟨p⟩)) (some (.dev ⟨"d0", some ⟨p⟩⟩)) none
      = .error (.unsupportedProvider p) ∧
    resubmit_task st (.task ⟨"t0", some ⟨"d0", some ⟨p⟩⟩⟩) none
      = .error (.unsupportedProvider p) ∧
    remove_task st (.task ⟨"t0", some ⟨"d0", some ⟨p⟩⟩⟩) none
      = .error (.unsupportedProvider p) ∧
    list_tasks st (some (.prov ⟨p⟩)) none none = .error (.unsupportedProvider p) := by
  refine ⟨?_, ?_, ?_, ?_, ?_, ?_, ?_⟩
  · simp [list_devices, providerFromName, h1, h2]
  · simp [list_properties, deviceFromName, deviceGetToken, h1, h2]
  · simp [get_task_details, deviceGetToken, taskGetDevice, h1, h2]
  · simp [submit_task, deviceGetToken, h1, h2]
  · simp [resubmit_task, deviceGetToken, taskGetDevice, h1, h2]
  · simp [remove_task, deviceGetToken, taskGetDevice, h1, h2]
  · simp [list_tasks, providerFromName, providerGetToken, h1, h2]

/-- Witness for C1 at the concrete unregistered provider name
`nonexistent` in the fresh module state. -/
theorem c1_unsupported_provider_witness :
    ("nonexistent" ≠ "tencent" ∧ "nonexistent" ≠ "local") ∧
    list_devices stW (some (.prov ⟨"nonexistent"⟩)) none
      = .error (.unsupportedProvider "nonexistent") ∧
    list_properties stW none (some (.dev ⟨"d0", some ⟨"nonexistent"⟩⟩)) none
      = .error (.unsupportedProvider "nonexistent") ∧
    get_task_details stW (.task ⟨"t0", some ⟨"d0", some ⟨"nonexistent"⟩⟩⟩) none
      = .error (.unsupportedProvider "nonexistent") ∧
    submit_task stW (some (.prov ⟨"nonexistent"⟩)) (some (.dev ⟨"d0", some ⟨"nonexistent"⟩⟩)) none
      = .error (.unsupportedProvider "nonexistent") ∧
    resubmit_task stW (.task ⟨"t0", some ⟨"d0", some ⟨"nonexistent"⟩⟩⟩) none
      = .error (.unsupportedProvider "nonexistent") ∧
    remove_task stW (.task ⟨"t0", some ⟨"d0", some ⟨"nonexistent"⟩⟩⟩) none
      = .error (.unsupportedProvider "nonexistent") ∧
    list_tasks stW (some (.prov ⟨"nonexistent"⟩)) none none
      = .error (.unsupportedProvider "nonexistent") :=
  ⟨⟨by decide, by decide⟩, c1_unsupported_provider stW "nonexistent" (by decide) (by decide)⟩

/-- Claim C3: `get_token` returns the value stored under the single exact
credential key — `P.name + sep` when the device is omitted,
`P.name + sep + D.name` when a device is given — and `None` when that
exact key is absent; in particular it never falls back from the
device-scoped key to the provider-level key. -/
theorem c3_get_token_exact_key (st : CloudState) (P : Provider) (D : Device) :
    get_token st (some (.prov P)) none = .ok (dlookup st.saved_token (P.name ++ sep)) ∧
    get_token st (some (.prov P)) (some (.dev D))
      = .ok (dlookup st.saved_token (P.name ++ sep ++ D.name)) ∧
    (dlookup st.saved_token (P.name ++ sep ++ D.name) = none →
      get_token st (some (.prov P)) (some (.dev D)) = .ok none) := by
  refine ⟨?_, ?_, ?_⟩
  · simp [get_token, providerFromName]
  · cases hD : D.provider with
    | some q => simp [get_token, providerFromName, deviceFromName, hD]
    | none => simp [get_token, providerFromName, deviceFromName, normalizeProv, hD]
  · intro h
    cases hD : D.provider with
    | some q => simp [get_token, providerFromName, deviceFromName, hD, h]
    | none => simp [get_token, providerFromName, deviceFromName, normalizeProv, hD, h]

/-- Witness for C3: with only the provider-level token `tencent::` stored,
the device-scoped lookup for `tencent::20xmon` finds nothing — no
fallback to the provider-level key. -/
theorem c3_get_token_exact_key_witness :
    dlookup [("tencent::", [9, 9])] ("tencent" ++ sep ++ "20xmon") = none ∧
    get_token ⟨⟨"tencent"⟩, ⟨"simulator:tc", some ⟨"tencent"⟩⟩, [("tencent::", [9, 9])], none⟩
      (some (.prov ⟨"tencent"⟩)) (some (.dev ⟨"20xmon", none⟩)) = .ok none :=
  ⟨by decide,
    (c3_get_token_exact_key
      ⟨⟨"tencent"⟩, ⟨"simulator:tc", some ⟨"tencent"⟩⟩, [("tencent::", [9, 9])], none⟩
      ⟨"tencent"⟩ ⟨"20xmon", none⟩).2.2 (by decide)⟩

/-- Claim C4: setting a token for provider `P` and device `D` and then
reading it back with the same `P` and `D` returns exactly that token —
the set/get round trip through the shared credential key. -/
theorem c4_set_get_roundtrip (st : CloudState) (P D : PyVal) (t : List Nat) (c : Bool)
    (st' : CloudState) (m : List (String × List Nat))
    (h : set_token st (some t) (some P) (some D) c = .ok (st', m)) :
    get_token st' (some P) (some D) = .ok (some t) := by
  cases hp : providerFromName P with
  | error e =>
    rw [set_token] at h
    simp only [Option.getD_some, hp] at h
    exact Except.noConfusion h
  | ok prov =>
    cases hd : deviceFromName D (some (.prov prov)) with
    | error e =>
      rw [set_token] at h
      simp only [Option.getD_some, hp, hd] at h
      exact Except.noConfusion h
    | ok d =>
      rw [set_token] at h
      simp only [Option.getD_some, hp, hd] at h
      have hsaved : st'.saved_token
          = dinsert st.saved_token (prov.name ++ sep ++ d.name) t := by
        cases c <;> simp [tokenPersist] at h <;> rw [← h.1]
      rw [get_token]
      simp only [Option.getD_some, hp, hd, hsaved, dlookup_dinsert_self]

/-- Witness for C4 at a concrete provider, device and secret. -/
theorem c4_set_get_roundtrip_witness :
    set_token stW (some [1, 2, 3]) (some (.prov ⟨"tencent"⟩)) (some (.dev ⟨"20xmon", none⟩)) true
      = .ok (⟨⟨"tencent"⟩, ⟨"simulator:tc", some ⟨"tencent"⟩⟩,
          [("tencent::20xmon", [1, 2, 3])], some [("tencent::20xmon", [65, 81, 73, 68])]⟩,
          [("tencent::20xmon", [1, 2, 3])]) ∧
    get_token ⟨⟨"tencent"⟩, ⟨"simulator:tc", some ⟨"tencent"⟩⟩,
        [("tencent::20xmon", [1, 2, 3])], some [("tencent::20xmon", [65, 81, 73, 68])]⟩
      (some (.prov ⟨"tencent"⟩)) (some (.dev ⟨"20xmon", none⟩)) = .ok (some [1, 2, 3]) :=
  ⟨by rfl,
    c4_set_get_roundtrip stW (.prov ⟨"tencent"⟩) (.dev ⟨"20xmon", none⟩) [1, 2, 3] true
      ⟨⟨"tencent"⟩, ⟨"simulator:tc", some ⟨"tencent"⟩⟩,
        [("tencent::20xmon", [1, 2, 3])], some [("tencent::20xmon", [65, 81, 73, 68])]⟩
      [("tencent::20xmon", [1, 2, 3])] (by rfl)⟩

theorem dlookup_dupdate_nil_base {α : Type} (M : List (String × α)) (k : String)
    (hn : (M.map Prod.fst).Nodup) : dlookup (dupdate [] M) k = dlookup M k := by
  cases h : dlookup M k with
  | some v => exact dlookup_dupdate_some M [] k v hn h
  | none => rw [dlookup_dupdate_none M [] k h]; rfl

theorem set_token_load (st : CloudState) (F : List (String × List Nat))
    (hF : ∀ kv ∈ F, ∀ b ∈ kv.2, b < 256) :
    set_token { st with authfile := some (F.map fun kv => (kv.1, b64encode_s kv.2)) }
        none none none true
      = .ok (⟨st.default_provider, st.default_device, dupdate F st.saved_token,
          some ((dupdate F st.saved_token).map fun kv => (kv.1, b64encode_s kv.2))⟩,
        dupdate F st.saved_token) := by
  simp [set_token, providerFromName, decodeEntries_encode F hF, tokenPersist]

theorem set_token_load_nofile (st : CloudState) :
    set_token { st with authfile := none } none none none true
      = .ok (⟨st.default_provider, st.default_device, dupdate [] st.saved_token,
          some ((dupdate [] st.saved_token).map fun kv => (kv.1, b64encode_s kv.2))⟩,
        dupdate [] st.saved_token) := by
  simp [set_token, providerFromName, tokenPersist]

/-- Claim C2: `set_token` with no token merges the persisted file as the
base under the in-memory mapping — the reload succeeds, a key present in
memory keeps its in-memory value, a key absent from memory gets the file's
value (so keys present in only one of the two mappings survive with their
values), and a missing persisted file is no error but an empty base, the
in-memory mapping surviving unchanged. -/
theorem c2_token_merge (st : CloudState) (F : List (String × List Nat)) (k : String)
    (hM : (st.saved_token.map Prod.fst).Nodup)
    (hF : ∀ kv ∈ F, ∀ b ∈ kv.2, b < 256) :
    set_token { st with authfile := some (F.map fun kv => (kv.1, b64encode_s kv.2)) }
        none none none true
      = .ok (⟨st.default_provider, st.default_device, dupdate F st.saved_token,
          some ((dupdate F st.saved_token).map fun kv => (kv.1, b64encode_s kv.2))⟩,
        dupdate F st.saved_token) ∧
    (∀ v, dlookup st.saved_token k = some v → dlookup (dupdate F st.saved_token) k = some v) ∧
    (dlookup st.saved_token k = none → dlookup (dupdate F st.saved_token) k = dlookup F k) ∧
    set_token { st with authfile := none } none none none true
      = .ok (⟨st.default_provider, st.default_device, dupdate [] st.saved_token,
          some ((dupdate [] st.saved_token).map fun kv => (kv.1, b64encode_s kv.2))⟩,
        dupdate [] st.saved_token) ∧
    dlookup (dupdate [] st.saved_token) k = dlookup st.saved_token k := by
  refine ⟨set_token_load st F hF, ?_, ?_, set_token_load_nofile st, ?_⟩
  · intro v hv
    exact dlookup_dupdate_some st.saved_token F k v hM hv
  · intro hnone
    exact dlookup_dupdate_none st.saved_token F k hnone
  · exact dlookup_dupdate_nil_base st.saved_token k hM

/-- Witness for C2 at a concrete overlapping pair of mappings: memory maps
`tencent::` to byte `1`, file maps `tencent::` to byte `2` (encoded
`Ag==`) and `x` to byte `3` (encoded `Aw==`); after the merge the
in-memory value wins on the shared key and `x` survives from the file. -/
theorem c2_token_merge_witness :
    (([("tencent::", ([1] : List Nat))].map Prod.fst).Nodup) ∧
    dlookup (dupdate [("tencent::", [2]), ("x", [3])] [("tencent::", ([1] : List Nat))])
      "tencent::" = some [1] ∧
    dlookup (dupdate [("tencent::", [2]), ("x", [3])] [("tencent::", ([1] : List Nat))])
      "x" = some [3] ∧
    dlookup (dupdate ([] : List (String × List Nat)) [("tencent::", ([1] : List Nat))])
      "tencent::" = dlookup [("tencent::", ([1] : List Nat))] "tencent::" := by
  have h1 := c2_token_merge
    ⟨⟨"tencent"⟩, ⟨"simulator:tc", some ⟨"tencent"⟩⟩, [("tencent::", [1])], none⟩
    [("tencent::", [2]), ("x", [3])] "tencent::" (by decide) (by decide)
  have h2 := c2_token_merge
    ⟨⟨"tencent"⟩, ⟨"simulator:tc", some ⟨"tencent"⟩⟩, [("tencent::", [1])], none⟩
    [("tencent::", [2]), ("x", [3])] "x" (by decide) (by decide)
  refine ⟨by decide, h1.2.1 [1] (by decide), ?_, h1.2.2.2.2⟩
  exact h2.2.2.1 (by decide)

theorem tokenPersist_true_shape (s st₂ : CloudState) (m : List (String × List Nat))
    (h : tokenPersist s true = .ok (st₂, m)) :
    st₂.authfile = some (st₂.saved_token.map fun kv => (kv.1, b64encode_s kv.2)) ∧
    m = st₂.saved_token := by
  rw [tokenPersist, if_pos rfl] at h
  simp only [Except.ok.injEq, Prod.mk.injEq] at h
  obtain ⟨h1, h2⟩ := h
  subst h2
  rw [← h1]
  exact ⟨rfl, rfl⟩

theorem set_token_cached_shape (st : CloudState) (tok : Option (List Nat))
    (prov dev : Option PyVal) (st₂ : CloudState) (m : List (String × List Nat))
    (h : set_token st tok prov dev true = .ok (st₂, m)) :
    st₂.authfile = some (st₂.saved_token.map fun kv => (kv.1, b64encode_s kv.2)) ∧
    m = st₂.saved_token := by
  rw [set_token] at h
  dsimp only [] at h
  repeat' split at h
  all_goals first
    | exact Except.noConfusion h
    | exact tokenPersist_true_shape _ _ _ h

theorem set_token_fresh_reload (dp : Provider) (dd : Device)
    (L : List (String × List Nat)) (hv : ∀ kv ∈ L, ∀ b ∈ kv.2, b < 256) :
    set_token ⟨dp, dd, [], some (L.map fun kv => (kv.1, b64encode_s kv.2))⟩
        none none none true
      = .ok (⟨dp, dd, L, some (L.map fun kv => (kv.1, b64encode_s kv.2))⟩, L) := by
  simp [set_token, providerFromName, decodeEntries_encode L hv, tokenPersist, dupdate]

/-- Claim C5: any `set_token` call with `cached = true` writes the entire
in-memory mapping, each value base64-encoded, to the persisted file as its
full new contents, and reloading on a fresh instance (empty in-memory
mapping, same file, `set_token` with no token) reproduces exactly the same
mapping — the encode/decode pair is lossless on the stored secrets. -/
theorem c5_persist_reload (st : CloudState) (tok : Option (List Nat))
    (prov dev : Option PyVal) (st₂ : CloudState) (m : List (String × List Nat))
    (h : set_token st tok prov dev true = .ok (st₂, m))
    (hv : ∀ kv ∈ st₂.saved_token, ∀ b ∈ kv.2, b < 256) :
    st₂.authfile = some (st₂.saved_token.map fun kv => (kv.1, b64encode_s kv.2)) ∧
    m = st₂.saved_token ∧
    set_token ⟨st₂.default_provider, st₂.default_device, [], st₂.authfile⟩
        none none none true
      = .ok (⟨st₂.default_provider, st₂.default_device, st₂.saved_token, st₂.authfile⟩,
        st₂.saved_token) := by
  obtain ⟨hA, hm⟩ := set_token_cached_shape st tok prov dev st₂ m h
  refine ⟨hA, hm, ?_⟩
  rw [hA]
  exact set_token_fresh_reload st₂.default_provider st₂.default_device st₂.saved_token hv

/-- Witness for C5: store byte `5` under `tencent::`, persist, reload on a
fresh empty instance — the same single-entry mapping comes back. -/
theorem c5_persist_reload_witness :
    set_token stW (some [5]) none none true
      = .ok (⟨⟨"tencent"⟩, ⟨"simulator:tc", some ⟨"tencent"⟩⟩,
          [("tencent::", [5])], some [("tencent::", [66, 81, 61, 61])]⟩,
        [("tencent::", [5])]) ∧
    set_token ⟨⟨"tencent"⟩, ⟨"simulator:tc", some ⟨"tencent"⟩⟩, [],
        some [("tencent::", [66, 81, 61, 61])]⟩ none none none true
      = .ok (⟨⟨"tencent"⟩, ⟨"simulator:tc", some ⟨"tencent"⟩⟩,
          [("tencent::", [5])], some [("tencent::", [66, 81, 61, 61])]⟩,
        [("tencent::", [5])]) := by
  have h := c5_persist_reload stW (some [5]) none none
    ⟨⟨"tencent"⟩, ⟨"simulator:tc", some ⟨"tencent"⟩⟩,
      [("tencent::", [5])], some [("tencent::", [66, 81, 61, 61])]⟩
    [("tencent::", [5])] (by rfl) (by decide)
  exact ⟨by rfl, h.2.2⟩

/-- Claim C6: after `set_provider` with `set_global = true` completes, the
newly set provider is the one every reader of the default observes — the
stored default equals the returned provider, `get_provider`
(`set_provider` with `set_global = false` and no argument) returns it, and
`get_token` / `list_devices` with the provider omitted behave exactly as
if the new provider had been passed explicitly; no reader sees a stale
value. -/
theorem c6_default_provider_visibility (st : CloudState) (p : PyVal) (P : Provider)
    (st' : CloudState) (h : set_provider st (some p) true = .ok (P, st')) :
    st'.default_provider = P ∧
    set_provider st' none false = .ok (P, st') ∧
    (∀ d, get_token st' none d = get_token st' (some (.prov P)) d) ∧
    (∀ tk, list_devices st' none tk = list_devices st' (some (.prov P)) tk) := by
  cases hp : providerFromName p with
  | error e =>
    rw [set_provider] at h
    simp only [Option.getD_some, hp] at h
    exact Except.noConfusion h
  | ok pr =>
    rw [set_provider] at h
    simp only [Option.getD_some, hp, if_true, Except.ok.injEq, Prod.mk.injEq] at h
    obtain ⟨hP, hst⟩ := h
    subst hP
    rw [← hst]
    exact ⟨rfl, rfl, fun d => rfl, fun tk => rfl⟩

/-- Witness for C6: globally setting the provider to `local` in the fresh
state makes every defaulting reader observe `local`. -/
theorem c6_default_provider_visibility_witness :
    (⟨⟨"local"⟩, ⟨"simulator:tc", some ⟨"tencent"⟩⟩, [], none⟩ :
      CloudState).default_provider = ⟨"local"⟩ ∧
    set_provider ⟨⟨"local"⟩, ⟨"simulator:tc", some ⟨"tencent"⟩⟩, [], none⟩ none false
      = .ok (⟨"local"⟩, ⟨⟨"local"⟩, ⟨"simulator:tc", some ⟨"tencent"⟩⟩, [], none⟩) ∧
    get_token ⟨⟨"local"⟩, ⟨"simulator:tc", some ⟨"tencent"⟩⟩, [], none⟩ none none
      = get_token ⟨⟨"local"⟩, ⟨"simulator:tc", some ⟨"tencent"⟩⟩, [], none⟩
        (some (.prov ⟨"local"⟩)) none ∧
    list_devices ⟨⟨"local"⟩, ⟨"simulator:tc", some ⟨"tencent"⟩⟩, [], none⟩ none none
      = list_devices ⟨⟨"local"⟩, ⟨"simulator:tc", some ⟨"tencent"⟩⟩, [], none⟩
        (some (.prov ⟨"local"⟩)) none := by
  obtain ⟨h1, h2, h3, h4⟩ := c6_default_provider_visibility stW (.str "local") ⟨"local"⟩
    ⟨⟨"local"⟩, ⟨"simulator:tc", some ⟨"tencent"⟩⟩, [], none⟩ (by rfl)
  exact ⟨h1, h2, h3 none, h4 none⟩

/-- Claim C7: a raw composite task reference containing the task separator
splits into its device part — parsed as a Device by the constructor — and
the bare task id to its right; a raw id without the separator stays whole
with no device; and an id given together with an explicit device is never
decomposed. -/
theorem c7_split_task_reference (st : CloudState) (raw l r : String)
    (hsplit : splitSep2 raw = [l, r]) :
    (∃ d, deviceInit l none = .ok d ∧ get_task st raw none none = .ok ⟨r, some d⟩) ∧
    (∀ s : String, splitSep2 s = [s] → get_task st s none none = .ok ⟨s, none⟩) ∧
    (∀ (s : String) (v : PyVal) (d : Device), deviceFromName v none = .ok d →
      get_task st s none (some v) = .ok ⟨s, some d⟩) := by
  refine ⟨?_, ?_, ?_⟩
  · cases hd : deviceInit l none with
    | error e =>
      exfalso
      rw [deviceInit] at hd
      by_cases hl : (splitSep l).length > 1 <;>
        simp [hl, normalizeProv] at hd
    | ok d =>
      exact ⟨d, rfl, by simp [get_task, hsplit, hd]⟩
  · intro s hs
    simp [get_task, hs]
  · intro s v d hd
    simp [get_task, hd]

/-- Witness for C7 at the spec's concrete example
`tencent::20xmon ~~ abc123`, a bare id, and an explicit device. -/
theorem c7_split_task_reference_witness :
    splitSep2 "tencent::20xmon~~abc123" = ["tencent::20xmon", "abc123"] ∧
    get_task stW "tencent::20xmon~~abc123" none none
      = .ok ⟨"abc123", some ⟨"20xmon", some ⟨"tencent"⟩⟩⟩ ∧
    get_task stW "abc123" none none = .ok ⟨"abc123", none⟩ ∧
    get_task stW "x~~y" none (some (.dev ⟨"20xmon", some ⟨"tencent"⟩⟩))
      = .ok ⟨"x~~y", some ⟨"20xmon", some ⟨"tencent"⟩⟩⟩ := by
  obtain ⟨⟨d, hd, hget⟩, hbare, hdev⟩ := c7_split_task_reference stW
    "tencent::20xmon~~abc123" "tencent::20xmon" "abc123" (by decide)
  have hd2 : deviceInit "tencent::20xmon" none = .ok ⟨"20xmon", some ⟨"tencent"⟩⟩ := by rfl
  rw [hd2] at hd
  injection hd with hdd
  subst hdd
  exact ⟨by decide, hget, hbare "abc123" (by decide),
    hdev "x~~y" (.dev ⟨"20xmon", some ⟨"tencent"⟩⟩) ⟨"20xmon", some ⟨"tencent"⟩⟩ (by rfl)⟩

theorem set_device_never_deviceRequired (st : CloudState) (p? d? : Option PyVal)
    (g : Bool) : set_device st p? d? g ≠ .error .deviceRequired := by
  have core : ∀ (pp : Option PyVal) (dv : PyVal),
      (match dv with
        | .str s =>
          if (splitSep s).length > 1 then deviceInit s pp
          else deviceInit s (some (pp.getD (.prov st.default_provider)))
        | other => deviceFromName other (some (pp.getD (.prov st.default_provider))))
        ≠ .error .deviceRequired := by
    intro pp dv
    cases dv with
    | str s =>
      by_cases hl : (splitSep s).length > 1
      · simpa [hl] using deviceInit_ne_deviceRequired s pp
      · simpa [hl] using
          deviceInit_ne_deviceRequired s (some (pp.getD (.prov st.default_provider)))
    | prov p => exact deviceFromName_ne_deviceRequired _ _
    | dev d => exact deviceFromName_ne_deviceRequired _ _
    | task t => exact deviceFromName_ne_deviceRequired _ _
  have main : ∀ (pp dd : Option PyVal), ¬ (dd.isNone && pp.isSome) = true →
      (match (match dd.getD (.dev st.default_device) with
        | .str s =>
          if (splitSep s).length > 1 then deviceInit s pp
          else deviceInit s (some (pp.getD (.prov st.default_provider)))
        | other => deviceFromName other (some (pp.getD (.prov st.default_provider)))) with
      | .error e => (.error e : Except Err (Device × CloudState))
      | .ok dev =>
        if g then .ok (dev, { st with default_device := dev }) else .ok (dev, st))
        ≠ .error .deviceRequired := by
    intro pp dd hc
    cases hres : (match dd.getD (.dev st.default_device) with
      | .str s =>
        if (splitSep s).length > 1 then deviceInit s pp
        else deviceInit s (some (pp.getD (.prov st.default_provider)))
      | other => deviceFromName other (some (pp.getD (.prov st.default_provider)))) with
    | error e =>
      intro hcon
      have he : e = Err.deviceRequired := by simpa using hcon
      exact core pp (dd.getD (.dev st.default_device)) (hres.trans (by rw [he]))
    | ok dev =>
      cases g <;> simp
  rcases p? with _ | p <;> rcases d? with _ | d
  · exact main none none (by decide)
  · exact main none (some d) (by simp)
  · exact main none (some p) (by simp)
  · exact main (some p) (some d) (by simp)

/-- Claim C8, counterexample: `set_device` called with a provider and no
device does not fail — in the fresh state the call
`set_device (provider := "foo")` succeeds, resolving `foo` as a device
name with the default provider attached, instead of raising the
`Please specify the device apart from the provider` error the claim
requires. -/
theorem c8_counterexample :
    set_device stW (some (.str "foo")) none true
      = .ok (⟨"foo", some ⟨"tencent"⟩⟩,
        ⟨⟨"tencent"⟩, ⟨"foo", some ⟨"tencent"⟩⟩, [], none⟩) := by rfl

/-- Claim C8, amended: when `set_device` is called with a provider and no
device, the two arguments are swapped so the provider value is treated as
the device specification — the call behaves exactly like passing that
value as the device — and the `Please specify the device apart from the
provider` (`AmbiguousDeviceSpecification`) branch is unreachable: no
`set_device` call ever returns it. -/
theorem c8_provider_alone_swapped (st : CloudState) (v : PyVal) (g : Bool)
    (p? d? : Option PyVal) :
    set_device st (some v) none g = set_device st none (some v) g ∧
    set_device st p? d? g ≠ .error .deviceRequired :=
  ⟨rfl, set_device_never_deviceRequired st p? d? g⟩

/-- Witness for C8's amended claim at concrete arguments. -/
theorem c8_provider_alone_swapped_witness :
    (set_device stW (some (.str "bar")) none false
      = set_device stW none (some (.str "bar")) false) ∧
    set_device stW (some (.str "bar")) none false ≠ .error .deviceRequired :=
  c8_provider_alone_swapped stW (.str "bar") false (some (.str "bar")) none

/-- Claim C9: a device string embedding a provider prefix
(`provider::name`) conflicts with a different explicitly passed provider —
`set_device` and `submit_task` both fail with the provider/device
mismatch error before anything else happens; when the prefix agrees with
the explicit provider, or no provider is passed, resolution succeeds and
the resolved device's provider is the prefix provider — never absent. -/
theorem c9_provider_prefix_reconciliation (st : CloudState) (s p d : String)
    (q : Provider) (g : Bool) (hs : splitSep s = [p, d]) :
    (q.name ≠ p →
      set_device st (some (.prov q)) (some (.str s)) g
        = .error (.providerDeviceMismatch p q.name) ∧
      submit_task st (some (.prov q)) (some (.str s)) none
        = .error (.providerDeviceMismatch p q.name)) ∧
    (q.name = p →
      ∃ st', set_device st (some (.prov q)) (some (.str s)) g
        = .ok (⟨d, some ⟨p⟩⟩, st')) ∧
    (∃ st', set_device st none (some (.str s)) g = .ok (⟨d, some ⟨p⟩⟩, st')) := by
  obtain ⟨h0, hagree, hconf⟩ := deviceInit_sep s p d hs
  have hlen : (splitSep s).length > 1 := by rw [hs]; simp
  refine ⟨?_, ?_, ?_⟩
  · intro hq
    constructor
    · simp [set_device, hlen, hconf q hq]
    · simp [submit_task, hlen, hconf q hq]
  · intro hq
    cases g with
    | false => exact ⟨st, by simp [set_device, hlen, hagree q hq]⟩
    | true =>
      exact ⟨{ st with default_device := ⟨d, some ⟨p⟩⟩ },
        by simp [set_device, hlen, hagree q hq]⟩
  · cases g with
    | false => exact ⟨st, by simp [set_device, hlen, h0]⟩
    | true =>
      exact ⟨{ st with default_device := ⟨d, some ⟨p⟩⟩ },
        by simp [set_device, hlen, h0]⟩

/-- Witness for C9: device string `tencent::20xmon` against the explicit
provider `local` fails with the mismatch error in both `set_device` and
`submit_task`. -/
theorem c9_provider_prefix_reconciliation_witness :
    splitSep "tencent::20xmon" = ["tencent", "20xmon"] ∧
    (Provider.mk "local").name ≠ "tencent" ∧
    set_device stW (some (.prov ⟨"local"⟩)) (some (.str "tencent::20xmon")) false
      = .error (.providerDeviceMismatch "tencent" "local") ∧
    submit_task stW (some (.prov ⟨"local"⟩)) (some (.str "tencent::20xmon")) none
      = .error (.providerDeviceMismatch "tencent" "local") := by
  have h := (c9_provider_prefix_reconciliation stW "tencent::20xmon" "tencent" "20xmon"
    ⟨"local"⟩ false (by decide)).1 (by decide)
  exact ⟨by decide, by decide, h.1, h.2⟩

/-- Claim C10: `get_provider` (`set_provider` with `set_global = false`)
and `get_device` (`set_device` with `set_global = false`) return the
resolved handle without mutating anything — the default provider, default
device and in-memory token mapping of the state are all unchanged. -/
theorem c10_getters_pure (st : CloudState) (p d : Option PyVal) :
    (∀ P st', set_provider st p false = .ok (P, st') → st' = st) ∧
    (∀ D st', set_device st p d false = .ok (D, st') → st' = st) := by
  constructor
  · intro P st' h
    rw [set_provider] at h
    cases hp : providerFromName (p.getD (.prov st.default_provider)) with
    | error e =>
      rw [hp] at h
      exact Except.noConfusion h
    | ok pr =>
      rw [hp] at h
      simp only [Bool.false_eq_true, if_false, Except.ok.injEq, Prod.mk.injEq] at h
      exact h.2.symm
  · intro D st' h
    rcases p with _ | p <;> rcases d with _ | d <;>
      rw [set_device] at h <;> (try dsimp only [] at h) <;> repeat' split at h
    all_goals
      first
      | exact Except.noConfusion h
      | {simp only [Bool.false_eq_true, if_false, Except.ok.injEq, Prod.mk.injEq] at h
         exact h.2.symm}
      | {simp only [Except.ok.injEq, Prod.mk.injEq] at h
         exact h.2.symm}
      | simp_all

/-- Witness for C10: concrete read-only calls leave the fresh state
untouched. -/
theorem c10_getters_pure_witness :
    set_provider stW (some (.str "local")) false = .ok (⟨"local"⟩, stW) ∧
    set_device stW none (some (.str "dev1")) false
      = .ok (⟨"dev1", some ⟨"tencent"⟩⟩, stW) ∧ stW = stW := by
  refine ⟨by rfl, by rfl, ?_⟩
  exact (c10_getters_pure stW (some (.str "local")) none).1 ⟨"local"⟩ stW (by rfl)

end TcCloud
